import Mathlib

/-!
Shallow embedding of the kolesa-dwh ingestion pipeline.

Text is modelled as `List Char`.  Python strings become `List Char`,
Python `None`-able values become `Option`, raising code returns `Except`.
Machine-independent integers (Python ints) are `Int`/`Nat`.  Timestamps are
minutes since an epoch; a calendar date is the number of whole days.

The definitions below are translated from the repository sources:
  src/common/utils.py        (detect_blocking)
  src/transform/parse_listing_html.py (parse_listing)
  src/transform/silver_upsert.py      (upsert_silver)
  src/extract/discover_listings.py    (discover_pages_to_db insert loop)
  src/extract/fetch_listing.py        (fetch_single_listing,
                                       fetch_and_process_batch, update_state,
                                       schedule_retry)
-/

set_option maxRecDepth 20000

namespace Kolesa

/-- Python `str.lower` restricted to ASCII and Cyrillic letters, the only
characters the pipeline ever compares case-insensitively. -/
def pyLowerChar (c : Char) : Char :=
  if 'A' ≤ c ∧ c ≤ 'Z' then Char.ofNat (c.toNat + 32)
  else if 'А' ≤ c ∧ c ≤ 'Я' then Char.ofNat (c.toNat + 32)
  else if c = 'Ё' then 'ё'
  else c

/-- Python html.lower(): lowercase every character. -/
def lowerStr (s : List Char) : List Char := s.map pyLowerChar

/-- Tests whether needle is a prefix of hay. -/
def isPre : List Char → List Char → Bool
  | [], _ => true
  | _ :: _, [] => false
  | a :: as, b :: bs => a == b && isPre as bs

/-- Python substring test `needle in hay`. -/
def containsSub (needle : List Char) : List Char → Bool
  | [] => isPre needle []
  | c :: tl => isPre needle (c :: tl) || containsSub needle tl

/-- Suffix of `hay` that follows the first occurrence of `needle`;
`none` when `needle` does not occur.  Used to model a regex literal
followed by `.*`. -/
def dropAfterFirst (needle : List Char) : List Char → Option (List Char)
  | [] => if isPre needle [] then some [] else none
  | c :: tl =>
    if isPre needle (c :: tl) then some ((c :: tl).drop needle.length)
    else dropAfterFirst needle tl

/-- A regex of the form `lit1.*lit2.*...*litk` matches a newline-free
segment iff the literals occur in order, each after the end of the
previous one; taking the first occurrence each time is complete. -/
def matchSeq : List (List Char) → List Char → Bool
  | [], _ => true
  | p :: ps, hay =>
    match dropAfterFirst p hay with
    | some rest => matchSeq ps rest
    | none => false

/-- Split on a newline character; Python `re` `.` does not cross lines. -/
def splitNL : List Char → List (List Char)
  | [] => [[]]
  | c :: tl =>
    if c = '\n' then [] :: splitNL tl
    else
      match splitNL tl with
      | [] => [[c]]
      | seg :: rest => (c :: seg) :: rest

/-- Models re.search of a `lit1.*lit2...` pattern over a whole text: some
newline-free segment carries the literals in order. -/
def reSearchPats (pats : List (List Char)) (hay : List Char) : Bool :=
  (splitNL hay).any (fun seg => matchSeq pats seg)

/-- The fixed challenge-page patterns of `detect_blocking`
(src/common/utils.py lines 66-74), each given by its `.*`-separated
literal segments and its reason text. -/
def blockingPatterns : List (List (List Char) × List Char) :=
  [ (["cloudflare".toList, "ray".toList, "id".toList],
      "Cloudflare protection page".toList),
    (["checking".toList, "browser".toList, "before".toList, "accessing".toList],
      "Cloudflare challenge".toList),
    (["please".toList, "complete".toList, "security".toList, "check".toList],
      "Security check required".toList),
    (["unusual".toList, "traffic".toList, "detected".toList],
      "Unusual traffic detected".toList),
    (["access".toList, "denied".toList, "robot".toList],
      "Access denied - robot".toList),
    (["verify".toList, "you".toList, "are".toList, "human".toList],
      "Human verification required".toList),
    (["captcha".toList, "challenge".toList],
      "CAPTCHA challenge page".toList) ]

/-- The pattern loop: first matching pattern wins. -/
def findBlockingPattern (hay : List Char) : Option (List Char) :=
  blockingPatterns.findSome?
    (fun pr => if reSearchPats pr.1 hay then some pr.2 else none)

/-- Keyword set of the short-page heuristic. -/
def shortKeywords : List (List Char) :=
  ["captcha".toList, "cloudflare".toList, "challenge".toList, "verify".toList]

/-- Keyword set of the page-title heuristic. -/
def titleKeywords : List (List Char) :=
  ["captcha".toList, "challenge".toList, "verify".toList,
   "blocked".toList, "access denied".toList]

/-- Attempt the regex `<title[^>]*>([^<]+)</title>` anchored at the head of
`s`: literal `<title`, then the (unique) run of non-`>` characters and a
`>`, then a nonempty maximal run of non-`<` characters, then `</title>`. -/
def titleAt (s : List Char) : Option (List Char) :=
  if isPre "<title".toList s then
    let r1 := s.drop 6
    let pre := r1.takeWhile (fun c => !(c == '>'))
    match r1.drop pre.length with
    | '>' :: r3 =>
      let content := r3.takeWhile (fun c => !(c == '<'))
      if content.length > 0 && isPre "</title>".toList (r3.drop content.length)
      then some content else none
    | _ => none
  else none

/-- Leftmost match of the `<title...>` regex. -/
def findTitle : List Char → Option (List Char)
  | [] => none
  | c :: tl =>
    match titleAt (c :: tl) with
    | some t => some t
    | none => findTitle tl

/-- Final Cloudflare-marker heuristic of `detect_blocking`
(src/common/utils.py lines 87-89). -/
def cfRayCheck (html hl : List Char) : Bool × Option (List Char) :=
  if containsSub "cf-ray".toList hl && decide (html.length < 20000)
      && (containsSub "challenge".toList hl || containsSub "checking".toList hl)
  then (true, some "Cloudflare challenge page".toList)
  else (false, none)

/-- Translation of detect_blocking(html, url) from src/common/utils.py
lines 55-91.  The url argument is only used for logging and is dropped. -/
def detect_blocking (html : List Char) : Bool × Option (List Char) :=
  let hl := lowerStr html
  if decide (html.length < 5000)
      && shortKeywords.any (fun k => containsSub k hl) then
    (true, some "Suspiciously short response with blocking keywords".toList)
  else
    match findBlockingPattern hl with
    | some reason => (true, some reason)
    | none =>
      match findTitle hl with
      | some t =>
        if titleKeywords.any (fun k => containsSub k t) then
          (true, some ("Blocking page title: ".toList ++ t.take 50))
        else cfRayCheck html hl
      | none => cfRayCheck html hl

/-- Test fixture: a 3,000-character page containing the word "captcha". -/
def fixtureBlocked : List Char := "captcha".toList ++ List.replicate 2993 'a'

/-- Test fixture: a 50,000-character page with no blocking keywords and no
challenge patterns. -/
def fixtureNormal : List Char := List.replicate 50000 'a'

/-! HTML extractor: src/transform/parse_listing_html.py. -/

/-- Python whitespace, as recognised by str.split(), str.strip() and the
regex class \s; includes the no-break space, which Python treats as
whitespace. -/
def pySpace (c : Char) : Bool :=
  c == ' ' || c == '\t' || c == '\n' || c == '\r' || c == '\x0b' || c == '\x0c'
    || c == '\xa0'

/-- Python str.strip(). -/
def pyStrip (s : List Char) : List Char :=
  ((s.dropWhile pySpace).reverse.dropWhile pySpace).reverse

/-- Python str.split() with no argument: split on whitespace runs,
discarding empty pieces. -/
def splitWhite (s : List Char) : List (List Char) :=
  (List.splitOnP pySpace s).filter (fun w => !w.isEmpty)

/-- Helper _clean (src/transform/parse_listing_html.py lines 10-23) on a
present string: collapse whitespace; an empty result becomes None. -/
def pyClean (s : List Char) : Option (List Char) :=
  if (splitWhite s).isEmpty then none
  else some (List.intercalate [' '] (splitWhite s))

/-- Line preprocessing of parse_listing (line 32): text_lines. -/
def textLines (text : List Char) : List (List Char) :=
  ((splitNL text).map pyStrip).filter (fun l => !l.isEmpty)

/-- Index of the first occurrence of x, Python list.index. -/
def idxOf (x : List Char) : List (List Char) → Option Nat
  | [] => none
  | l :: ls => if l == x then some 0 else (idxOf x ls).map (· + 1)

/-- Helper find_value_after (lines 49-55): the cleaned line immediately
following the exact label line, if both exist. -/
def find_value_after (lines : List (List Char)) (label : List Char) :
    Option (List Char) :=
  match idxOf label lines with
  | some i => if i + 1 < lines.length then pyClean (lines.getD (i + 1) []) else none
  | none => none

/-- Decimal digits to a number. -/
def digitsToNat (ds : List Char) : Nat :=
  ds.foldl (fun acc c => acc * 10 + (c.toNat - '0'.toNat)) 0

/-- Python int(str): strip surrounding whitespace, optional sign, at least
one digit. -/
def pyIntStr (s : List Char) : Option Int :=
  match pyStrip s with
  | '-' :: ds =>
    if !ds.isEmpty && ds.all (fun c => c.isDigit) then some (-(digitsToNat ds : Int))
    else none
  | '+' :: ds =>
    if !ds.isEmpty && ds.all (fun c => c.isDigit) then some (digitsToNat ds : Int)
    else none
  | ds =>
    if !ds.isEmpty && ds.all (fun c => c.isDigit) then some (digitsToNat ds : Int)
    else none

/-- Character class of the price group: a digit or \s. -/
def charD (c : Char) : Bool := c.isDigit || pySpace c

/-- Attempts PRICE_RE = ([\d\s]+)\s*₸ at the head of s: the greedy group is
the maximal [\d\s] run; the match succeeds iff the run is nonempty and the
character after it is the tenge sign. -/
def priceAt (s : List Char) : Option (List Char) :=
  let run := s.takeWhile charD
  if run.length > 0 && isPre ['₸'] (s.drop run.length) then some run else none

/-- Leftmost PRICE_RE match (group 1). -/
def priceSearch : List Char → Option (List Char)
  | [] => none
  | c :: tl =>
    match priceAt (c :: tl) with
    | some g => some g
    | none => priceSearch tl

/-- Group post-processing shared by price and mileage (lines 44 and 73):
drop spaces and no-break spaces, then int(). -/
def numFromGroup (g : List Char) : Option Int :=
  pyIntStr (g.filter (fun c => !(c == ' ' || c == '\xa0')))

/-- Case-insensitive match of the alternation (км|km) at the head. -/
def kmAt : List Char → Bool
  | c1 :: c2 :: _ =>
    ((c1 == 'к' || c1 == 'К') && (c2 == 'м' || c2 == 'М'))
      || ((c1 == 'k' || c1 == 'K') && (c2 == 'm' || c2 == 'M'))
  | _ => false

/-- The tail \s*(км|km) of MILEAGE_RE. -/
def kmCheck (t : List Char) : Bool := kmAt (t.dropWhile pySpace)

/-- Backtracking ends of the group \d+(?:\s*\d+)* tried longest-first:
revPref holds the candidate group reversed; a group must end in a digit
and be followed by \s*(км|km). -/
def tryEnds : List Char → List Char → Option (List Char)
  | [], _ => none
  | c :: rp, suffix =>
    if c.isDigit && kmCheck suffix then some ((c :: rp).reverse)
    else tryEnds rp (c :: suffix)

/-- Attempts MILEAGE_RE = (\d+(?:\s*\d+)*)\s*(?:км|km) at the head of s. -/
def mileAt (s : List Char) : Option (List Char) :=
  match s with
  | [] => none
  | c :: _ =>
    if c.isDigit then
      let run := s.takeWhile charD
      tryEnds run.reverse (s.drop run.length)
    else none

/-- Leftmost MILEAGE_RE match (group 1). -/
def mileSearch : List Char → Option (List Char)
  | [] => none
  | c :: tl =>
    match mileAt (c :: tl) with
    | some g => some g
    | none => mileSearch tl

/-- Attempts (\d+(?:\.\d+)?) at the head of s; float() of the decimal
literal is modelled as the exact rational it denotes. -/
def volAt (s : List Char) : Option ℚ :=
  match s with
  | [] => none
  | c :: _ =>
    if c.isDigit then
      let ds := s.takeWhile (fun d => d.isDigit)
      let fs := match s.drop ds.length with
        | '.' :: r2 => r2.takeWhile (fun d => d.isDigit)
        | _ => []
      some ((digitsToNat ds : ℚ) + (digitsToNat fs : ℚ) / (10 ^ fs.length : ℚ))
    else none

/-- Leftmost number match for the engine volume (line 95). -/
def volSearch : List Char → Option ℚ
  | [] => none
  | c :: tl =>
    match volAt (c :: tl) with
    | some q => some q
    | none => volSearch tl

/-- Attempts the regex \(([^)]+)\) at the head of s. -/
def parenAt : List Char → Option (List Char)
  | '(' :: r =>
    let content := r.takeWhile (fun c => !(c == ')'))
    if content.length > 0 && isPre [')'] (r.drop content.length) then some content
    else none
  | _ => none

/-- Leftmost parenthesised-group match for the engine type (line 101). -/
def parenSearch : List Char → Option (List Char)
  | [] => none
  | c :: tl =>
    match parenAt (c :: tl) with
    | some g => some g
    | none => parenSearch tl

/-- Lowercase cased letter (ASCII and Cyrillic, the alphabets in play). -/
def isLowerCh (c : Char) : Bool :=
  ('a' ≤ c && c ≤ 'z') || ('а' ≤ c && c ≤ 'я') || c == 'ё'

/-- Uppercase cased letter (ASCII and Cyrillic). -/
def isUpperCh (c : Char) : Bool :=
  ('A' ≤ c && c ≤ 'Z') || ('А' ≤ c && c ≤ 'Я') || c == 'Ё'

/-- Regex word character \w over the alphabets in play. -/
def isWordChar (c : Char) : Bool :=
  c.isDigit || isLowerCh c || isUpperCh c || c == '_'

/-- Python str.isupper(): at least one cased character and no lowercase
one. -/
def pyIsUpper (s : List Char) : Bool :=
  s.any (fun c => isLowerCh c || isUpperCh c) && s.all (fun c => !isLowerCh c)

/-- Attempts \b(19\d{2}|20\d{2})\b with the previous character (boundary
context) already checked by the caller. -/
def yearHere : List Char → Option Nat
  | a :: b :: c :: d :: rest =>
    if ((a == '1' && b == '9') || (a == '2' && b == '0')) && c.isDigit && d.isDigit
        && !(match rest with | e :: _ => isWordChar e | [] => false) then
      some (digitsToNat [a, b, c, d])
    else none
  | _ => none

/-- Leftmost year match, threading the previous character for the left
word boundary. -/
def yearGo (prev : Option Char) : List Char → Option Nat
  | [] => none
  | c :: tl =>
    match (if (match prev with | some p => isWordChar p | none => false) then none
           else yearHere (c :: tl)) with
    | some y => some y
    | none => yearGo (some c) tl

/-- The year regex search of line 172. -/
def yearSearch (s : List Char) : Option Nat := yearGo none s

/-- Stop condition of the options loop (line 127): an all-caps line or a
known other-section label. -/
def optStopLine (l : List Char) : Bool :=
  pyIsUpper l || l == "Город".toList || l == "Поколение".toList
    || l == "Кузов".toList

/-- The options-collection loop body (lines 124-130). -/
def takeOpts : List (List Char) → List (List Char)
  | [] => []
  | l :: ls =>
    if !l.isEmpty && optStopLine l then []
    else if !l.isEmpty then l :: takeOpts ls
    else takeOpts ls

/-- Options extraction (lines 117-134): window of at most 19 lines after
the section header. -/
def optionsFrom (lines : List (List Char)) :
    Option (List Char) × List (List Char) :=
  match idxOf "Опции и характеристики".toList lines with
  | some i =>
    let opts := takeOpts ((lines.drop (i + 1)).take 19)
    (if opts.isEmpty then none
     else pyClean (List.intercalate "; ".toList opts), opts)
  | none => (none, [])

/-- Source attributes of one img element. -/
structure Img where
  data_src : Option (List Char)
  src : Option (List Char)
  data_lazy_src : Option (List Char)
deriving DecidableEq

/-- Abstraction of the third-party BeautifulSoup/lxml parse of the raw
HTML.  parse_listing only consumes the document through these three
queries; quantifying over all Soup values covers every input string the
library can be given (the library itself is an external collaborator and
does not raise on malformed input). -/
structure Soup where
  /-- soup.get_text("\n"): the rendered text of the document. -/
  text : List Char
  /-- get_text(" ", strip=True) of the first h1 element, when one exists. -/
  h1 : Option (List Char)
  /-- the img elements in document order with their source attributes. -/
  imgs : List Img
deriving DecidableEq

/-- Python `a or b` on optional strings: an empty string is falsy. -/
def pyOrStr (a b : Option (List Char)) : Option (List Char) :=
  match a with
  | some s => if s.isEmpty then b else some s
  | none => b

/-- Photo normalisation per img (lines 138-144). -/
def photoOf (img : Img) : Option (List Char) :=
  match pyOrStr img.data_src (pyOrStr img.src img.data_lazy_src) with
  | some src =>
    if !src.isEmpty
        && (isPre "http://".toList src || isPre "https://".toList src
            || isPre "/".toList src) then
      some (if isPre "/".toList src then "https://kolesa.kz".toList ++ src else src)
    else none
  | none => none

/-- Deduplication preserving first-seen order (lines 146-152). -/
def dedupeGo (seen : List (List Char)) : List (List Char) → List (List Char)
  | [] => []
  | p :: ps =>
    if seen.contains p then dedupeGo seen ps
    else p :: dedupeGo (p :: seen) ps

/-- Deduplicate a list of photo URLs preserving first-seen order. -/
def dedupe (l : List (List Char)) : List (List Char) := dedupeGo [] l

/-- Skip words of the trim inference (line 166). -/
def skipWords : List (List Char) := ["г.".toList, "год".toList, "year".toList]

/-- The trim loop (lines 167-170): first token that is not a skip word and
does not start with four digits. -/
def findTrim : List (List Char) → Option (List Char)
  | [] => none
  | p :: ps =>
    if !(skipWords.contains (lowerStr p))
        && !(match p with
             | a :: b :: c :: d :: _ => a.isDigit && b.isDigit && c.isDigit && d.isDigit
             | _ => false) then some p
    else findTrim ps

/-- The structured extraction result.  The Python function returns a dict
whose keys are fixed by the final literal (lines 179-206); the record
fields mirror those keys one-for-one (see toDict below). -/
structure Record where
  listing_id : Int
  url : List Char
  title : Option (List Char)
  price_kzt : Option Int
  city : Option (List Char)
  region : Option (List Char)
  make : Option (List Char)
  model : Option (List Char)
  generation : Option (List Char)
  trim : Option (List Char)
  car_year : Option Nat
  mileage_km : Option Int
  body_type : Option (List Char)
  engine_volume_l : Option ℚ
  engine_type : Option (List Char)
  transmission : Option (List Char)
  drivetrain : Option (List Char)
  steering : Option (List Char)
  color : Option (List Char)
  customs_cleared : Option Bool
  seller_name : Option (List Char)
  seller_type : List Char
  options_text : Option (List Char)
  options_list : List (List Char)
  photos : List (List Char)
  photo_count : Nat
deriving DecidableEq

/-- Translation of parse_listing (src/transform/parse_listing_html.py
lines 26-206). -/
def parse_listing (soup : Soup) (url : List Char) (listing_id : Int) : Record :=
  let lines := textLines soup.text
  let text := List.intercalate ['\n'] lines
  let title := soup.h1.bind pyClean
  let price_kzt := (priceSearch text).bind numFromGroup
  let city := find_value_after lines "Город".toList
  let region := pyOrStr (find_value_after lines "Регион".toList)
    (find_value_after lines "Область".toList)
  let generation := find_value_after lines "Поколение".toList
  let body_type := find_value_after lines "Кузов".toList
  let transmission := find_value_after lines "Коробка передач".toList
  let drivetrain := find_value_after lines "Привод".toList
  let steering := find_value_after lines "Руль".toList
  let color := find_value_after lines "Цвет".toList
  let customs := find_value_after lines "Растаможен в Казахстане".toList
  let customs_cleared :=
    if customs == some "Да".toList then some true
    else if customs == some "Нет".toList then some false
    else none
  let mileage0 := (mileSearch text).bind numFromGroup
  let mileage_km :=
    match mileage0 with
    | some v => some v
    | none =>
      match pyOrStr (find_value_after lines "Пробег".toList)
          (find_value_after lines "Пробег, км".toList) with
      | some lbl => (mileSearch lbl).bind numFromGroup
      | none => none
  let engine_raw := find_value_after lines "Объем двигателя, л".toList
  let engine_volume_l := engine_raw.bind volSearch
  let engine_type := engine_raw.bind (fun er => (parenSearch er).bind pyClean)
  let seller_name := find_value_after lines "Проверенный продавец".toList
  let opts := optionsFrom lines
  let photos := dedupe (soup.imgs.filterMap photoOf)
  let parts := match title with | some t => splitWhite t | none => []
  let make := if parts.length ≥ 2 then parts.get? 0 else none
  let model := if parts.length ≥ 2 then parts.get? 1 else none
  let trim := if parts.length ≥ 3 then findTrim (parts.drop 2) else none
  let car_year := match title with | some t => yearSearch t | none => none
  { listing_id := listing_id
    url := url
    title := title
    price_kzt := price_kzt
    city := city
    region := region
    make := make
    model := model
    generation := generation
    trim := trim
    car_year := car_year
    mileage_km := mileage_km
    body_type := body_type
    engine_volume_l := engine_volume_l
    engine_type := engine_type
    transmission := transmission
    drivetrain := drivetrain
    steering := steering
    color := color
    customs_cleared := customs_cleared
    seller_name := seller_name
    seller_type :=
      match seller_name with
      | some _ => "dealer".toList
      | none => "private".toList
    options_text := opts.1
    options_list := opts.2
    photos := photos
    photo_count := photos.length }

/-- Python values as stored in the returned dict. -/
inductive PyVal where
  | pnone
  | pint (i : Int)
  | pstr (s : List Char)
  | pbool (b : Bool)
  | prat (q : ℚ)
  | plist (l : List PyVal)

/-- Optional string to a Python value. -/
def ovStr : Option (List Char) → PyVal
  | some s => .pstr s
  | none => .pnone

/-- Optional integer to a Python value. -/
def ovInt : Option Int → PyVal
  | some i => .pint i
  | none => .pnone

/-- Optional natural to a Python value. -/
def ovNat : Option Nat → PyVal
  | some n => .pint n
  | none => .pnone

/-- Optional rational to a Python value. -/
def ovRat : Option ℚ → PyVal
  | some q => .prat q
  | none => .pnone

/-- Optional boolean to a Python value. -/
def ovBool : Option Bool → PyVal
  | some b => .pbool b
  | none => .pnone

/-- The dict literal returned by parse_listing (lines 179-206), in source
order. -/
def toDict (r : Record) : List (List Char × PyVal) :=
  [("listing_id".toList, .pint r.listing_id),
   ("url".toList, .pstr r.url),
   ("title".toList, ovStr r.title),
   ("price_kzt".toList, ovInt r.price_kzt),
   ("city".toList, ovStr r.city),
   ("region".toList, ovStr r.region),
   ("make".toList, ovStr r.make),
   ("model".toList, ovStr r.model),
   ("generation".toList, ovStr r.generation),
   ("trim".toList, ovStr r.trim),
   ("car_year".toList, ovNat r.car_year),
   ("mileage_km".toList, ovInt r.mileage_km),
   ("body_type".toList, ovStr r.body_type),
   ("engine_volume_l".toList, ovRat r.engine_volume_l),
   ("engine_type".toList, ovStr r.engine_type),
   ("transmission".toList, ovStr r.transmission),
   ("drivetrain".toList, ovStr r.drivetrain),
   ("steering".toList, ovStr r.steering),
   ("color".toList, ovStr r.color),
   ("customs_cleared".toList, ovBool r.customs_cleared),
   ("seller_name".toList, ovStr r.seller_name),
   ("seller_type".toList, .pstr r.seller_type),
   ("options_text".toList, ovStr r.options_text),
   ("options_list".toList, .plist (r.options_list.map .pstr)),
   ("photos".toList, .plist (r.photos.map .pstr)),
   ("photo_count".toList, .pint r.photo_count)]

/-- The required keys of the extraction record, per the spec. -/
def requiredKeys : List (List Char) :=
  ["listing_id", "url", "title", "price_kzt", "city", "region", "make",
   "model", "generation", "trim", "car_year", "mileage_km", "body_type",
   "engine_volume_l", "engine_type", "transmission", "drivetrain",
   "steering", "color", "customs_cleared", "seller_name", "seller_type",
   "options_text", "options_list", "photos", "photo_count"].map String.toList

/-! Persistence / change detector: src/transform/silver_upsert.py. -/

/-- A Python datetime as used by the persistence layer: the instant in
minutes since an epoch, plus whether the value carries a tzinfo
(upsert_silver rejects naive datetimes). -/
structure PyDatetime where
  minutes : Nat
  tzAware : Bool
deriving DecidableEq

/-- Calendar date (whole days since the epoch) of a timestamp. -/
def dateOfTs (t : PyDatetime) : Nat := t.minutes / 1440

/-- Content fingerprint: the SHA-256 digest of the canonical JSON
serialization of the record (silver_upsert.py lines 12-23).  The digest
and the serialization are injective, so the fingerprint is modelled by
the normalized payload itself. -/
def payload_hash (listing : Record) : Record := listing

/-- One row of silver.listing_current, with exactly the columns written by
upsert_silver (lines 72-120). -/
structure CurrentRow where
  listing_id : Int
  url : List Char
  title : Option (List Char)
  price_kzt : Option Int
  city : Option (List Char)
  region : Option (List Char)
  make : Option (List Char)
  model : Option (List Char)
  generation : Option (List Char)
  trim : Option (List Char)
  car_year : Option Nat
  mileage_km : Option Int
  body_type : Option (List Char)
  engine_volume_l : Option ℚ
  engine_type : Option (List Char)
  transmission : Option (List Char)
  drivetrain : Option (List Char)
  steering : Option (List Char)
  color : Option (List Char)
  customs_cleared : Option Bool
  seller_name : Option (List Char)
  seller_type : List Char
  seller_user_id : Option Int
  seller_months_on_site : Option Int
  seller_inventory_count : Option Int
  seller_address : Option (List Char)
  options_text : Option (List Char)
  photos : List (List Char)
  first_seen_at : PyDatetime
  last_seen_at : PyDatetime
  is_active : Bool
  payload_hash : Record
deriving DecidableEq

/-- One row of silver.listing_snapshot_daily, keyed by
(listing_id, snapshot_date). -/
structure DailyRow where
  listing_id : Int
  snapshot_date : Nat
  price_kzt : Option Int
  is_active : Bool
  views : Option Int
  photo_count : Option Nat
deriving DecidableEq

/-- One row of silver.listing_price_event. -/
structure PriceEvent where
  listing_id : Int
  event_ts : PyDatetime
  old_price_kzt : Int
  new_price_kzt : Int
deriving DecidableEq

/-- The three silver tables touched by upsert_silver. -/
structure SilverState where
  current : List CurrentRow
  events : List PriceEvent
  daily : List DailyRow
deriving DecidableEq

/-- The SELECT at lines 50-54: existing current row for a listing. -/
def lookupCurrent (db : SilverState) (lid : Int) : Option CurrentRow :=
  db.current.find? (fun r => r.listing_id == lid)

/-- Existing daily-snapshot row for a (listing, date) key. -/
def lookupDaily (db : SilverState) (lid : Int) (d : Nat) : Option DailyRow :=
  db.daily.find? (fun r => r.listing_id == lid && r.snapshot_date == d)

/-- Presence of a price event with the given (listing, timestamp) key;
timestamptz values compare by instant. -/
def hasEvent (evs : List PriceEvent) (lid : Int) (ts : PyDatetime) : Bool :=
  evs.any (fun e => e.listing_id == lid && e.event_ts.minutes == ts.minutes)

/-- Modelled from the spec: the silver DDL is not under src/.  Per the
spec (PriceEvent is append-only keyed per (listing, timestamp); duplicate
events for the same (listing, timestamp) are suppressed) and the matching
gold DDL (fact_price_event has PRIMARY KEY (listing_id, event_ts)), the
INSERT ... ON CONFLICT DO NOTHING at lines 65-69 is a no-op exactly when
a row with the same (listing_id, event_ts) already exists. -/
def insertEvent (evs : List PriceEvent) (e : PriceEvent) : List PriceEvent :=
  if hasEvent evs e.listing_id e.event_ts then evs else evs ++ [e]

/-- The proposed (EXCLUDED) row of the INSERT at lines 72-86: all record
attributes, NULL for the four extra seller columns, the carried-over
first_seen, last_seen := fetched_at, is_active TRUE and the fresh
fingerprint. -/
def currentFromRecord (r : Record) (first_seen last_seen : PyDatetime)
    (ph : Record) : CurrentRow :=
  { listing_id := r.listing_id
    url := r.url
    title := r.title
    price_kzt := r.price_kzt
    city := r.city
    region := r.region
    make := r.make
    model := r.model
    generation := r.generation
    trim := r.trim
    car_year := r.car_year
    mileage_km := r.mileage_km
    body_type := r.body_type
    engine_volume_l := r.engine_volume_l
    engine_type := r.engine_type
    transmission := r.transmission
    drivetrain := r.drivetrain
    steering := r.steering
    color := r.color
    customs_cleared := r.customs_cleared
    seller_name := r.seller_name
    seller_type := r.seller_type
    seller_user_id := none
    seller_months_on_site := none
    seller_inventory_count := none
    seller_address := none
    options_text := r.options_text
    photos := r.photos
    first_seen_at := first_seen
    last_seen_at := last_seen
    is_active := true
    payload_hash := ph }

/-- The ON CONFLICT (listing_id) DO UPDATE SET list at lines 87-113: the
listed columns take the EXCLUDED value, is_active is forced TRUE; columns
absent from the SET list (first_seen_at and the four extra seller
columns) keep the old row's values. -/
def conflictUpdate (old ex : CurrentRow) : CurrentRow :=
  { old with
    url := ex.url
    title := ex.title
    price_kzt := ex.price_kzt
    city := ex.city
    region := ex.region
    make := ex.make
    model := ex.model
    generation := ex.generation
    trim := ex.trim
    car_year := ex.car_year
    mileage_km := ex.mileage_km
    body_type := ex.body_type
    engine_volume_l := ex.engine_volume_l
    engine_type := ex.engine_type
    transmission := ex.transmission
    drivetrain := ex.drivetrain
    steering := ex.steering
    color := ex.color
    customs_cleared := ex.customs_cleared
    seller_name := ex.seller_name
    seller_type := ex.seller_type
    options_text := ex.options_text
    photos := ex.photos
    last_seen_at := ex.last_seen_at
    is_active := true
    payload_hash := ex.payload_hash }

/-- INSERT ... ON CONFLICT (listing_id) DO UPDATE over the current table. -/
def upsertCurrentList (rows : List CurrentRow) (ex : CurrentRow) :
    List CurrentRow :=
  if rows.any (fun r => r.listing_id == ex.listing_id) then
    rows.map (fun r =>
      if r.listing_id == ex.listing_id then conflictUpdate r ex else r)
  else rows ++ [ex]

/-- The ON CONFLICT (listing_id, snapshot_date) DO UPDATE SET list at
lines 126-129: price, activity flag TRUE, photo count; views is not in
the SET list and keeps the old row's value. -/
def dailyConflictUpdate (old ex : DailyRow) : DailyRow :=
  { old with
    price_kzt := ex.price_kzt
    is_active := true
    photo_count := ex.photo_count }

/-- INSERT ... ON CONFLICT DO UPDATE over the daily-snapshot table. -/
def upsertDailyList (rows : List DailyRow) (ex : DailyRow) : List DailyRow :=
  if rows.any (fun r =>
      r.listing_id == ex.listing_id && r.snapshot_date == ex.snapshot_date) then
    rows.map (fun r =>
      if r.listing_id == ex.listing_id && r.snapshot_date == ex.snapshot_date
      then dailyConflictUpdate r ex else r)
  else rows ++ [ex]

/-- Errors raised by upsert_silver itself (the KeyError for a missing
listing_id key cannot arise here because Record always carries one). -/
inductive PyErr where
  | valueError (msg : List Char)
deriving DecidableEq

/-- Translation of upsert_silver (src/transform/silver_upsert.py lines
26-133).  today is the ambient clock's calendar date: the daily snapshot
key uses date.today() (line 130), not fetched_at.  The float() comparison
at line 63 is exact integer comparison for the integer prices in play.
Storage-layer failures are external and not modelled (they propagate to
the caller unchanged). -/
def upsert_silver (listing : Record) (fetched_at : PyDatetime) (today : Nat)
    (db : SilverState) : Except PyErr SilverState :=
  if fetched_at.tzAware = false then
    .error (.valueError "fetched_at must be timezone-aware".toList)
  else
    let ph := payload_hash listing
    let row := lookupCurrent db listing.listing_id
    let old_price := row.bind (fun r => r.price_kzt)
    let first_seen := match row with
      | some r => r.first_seen_at
      | none => fetched_at
    let events :=
      match old_price, listing.price_kzt with
      | some op, some np =>
        if op ≠ np then
          insertEvent db.events
            { listing_id := listing.listing_id
              event_ts := fetched_at
              old_price_kzt := op
              new_price_kzt := np }
        else db.events
      | _, _ => db.events
    let current := upsertCurrentList db.current
      (currentFromRecord listing first_seen fetched_at ph)
    let daily := upsertDailyList db.daily
      { listing_id := listing.listing_id
        snapshot_date := today
        price_kzt := listing.price_kzt
        is_active := true
        views := none
        photo_count := some listing.photo_count }
    .ok { current := current, events := events, daily := daily }

/-! Work queue and fetch worker: src/extract/fetch_listing.py and
src/extract/discover_listings.py. -/

/-- Lifecycle states of a queue entry. -/
inductive QState where
  | NEW
  | RETRY
  | FETCHED
  | INACTIVE
deriving DecidableEq

/-- One row of ctl.scrape_queue.  Timestamps are minutes since the epoch. -/
structure QueueRow where
  listing_id : Nat
  url : List Char
  state : QState
  attempts : Nat
  last_attempt_at : Option Nat
  next_retry_at : Option Nat
  last_http_status : Option Int
  last_error : Option (List Char)
deriving DecidableEq

/-- Modelled from the spec: the ctl.scrape_queue DDL is not under src/
(the discovery INSERT supplies only listing_id and url); per the spec the
defaults are state NEW, attempts 0 and null timestamps/status/error. -/
def newQueueRow (lid : Nat) (url : List Char) : QueueRow :=
  { listing_id := lid
    url := url
    state := .NEW
    attempts := 0
    last_attempt_at := none
    next_retry_at := none
    last_http_status := none
    last_error := none }

/-- INSERT INTO ctl.scrape_queue ... ON CONFLICT (listing_id) DO NOTHING
(discover_listings.py lines 235-241); the returned Bool is the statement
rowcount (1 when inserted, 0 on conflict). -/
def enqueue (q : List QueueRow) (lid : Nat) (url : List Char) :
    List QueueRow × Bool :=
  if q.any (fun r => r.listing_id == lid) then (q, false)
  else (q ++ [newQueueRow lid url], true)

/-- The detail URL built by the discovery loop (line 234). -/
def listingUrl (base : List Char) (lid : Nat) : List Char :=
  base ++ "/a/show/".toList ++ Nat.toDigits 10 lid

/-- The insert loop of discover_pages_to_db (lines 227-241): enqueue every
discovered id and sum the rowcounts. -/
def insertAll (base : List Char) (q : List QueueRow) :
    List Nat → List QueueRow × Nat
  | [] => (q, 0)
  | lid :: rest =>
    let step := enqueue q lid (listingUrl base lid)
    let next := insertAll base step.1 rest
    (next.1, (if step.2 then 1 else 0) + next.2)

/-- Number of queue rows carrying a listing id. -/
def countRows (q : List QueueRow) (lid : Nat) : Nat :=
  (q.filter (fun r => r.listing_id == lid)).length

/-- backoff in minutes: min(2 ** attempts, 60*24) (fetch_listing.py line
352). -/
def backoff_minutes (attempts : Nat) : Nat := min (2 ^ attempts) (60 * 24)

/-- update_state (fetch_listing.py lines 340-348). -/
def update_state (r : QueueRow) (st : QState) (status : Int)
    (error : Option (List Char)) : QueueRow :=
  { r with
    state := st
    last_http_status := some status
    last_error := error
    next_retry_at := none }

/-- schedule_retry (fetch_listing.py lines 350-361): state RETRY,
attempts overwritten, next_retry_at := now + backoff(attempts). -/
def schedule_retry (r : QueueRow) (attempts : Nat) (status : Int)
    (error : Option (List Char)) (now : Nat) : QueueRow :=
  { r with
    state := .RETRY
    attempts := attempts
    last_http_status := some status
    last_error := error
    next_retry_at := some (now + backoff_minutes attempts) }

/-- The attempt-tracking UPDATE of fetch_and_process_batch (lines
305-311). -/
def mark_attempt (r : QueueRow) (now : Nat) : QueueRow :=
  { r with last_attempt_at := some now, attempts := r.attempts + 1 }

/-- The environment's response to one navigation: either the fetch
machinery raised, or a page came back with an HTTP status, its final HTML
(fed to detect_blocking) and its parsed Soup.  persistOk says whether the
storage layer's upsert succeeds, an external effect. -/
inductive FetchEnv where
  | raises (msg : List Char)
  | responds (status : Int) (html : List Char) (soup : Soup) (persistOk : Bool)

/-- Exceptions inside fetch_single_listing: the distinguished blocking
signal versus any other exception. -/
inductive FetchExc where
  | blocking (reason : List Char)
  | exc (msg : List Char)
deriving DecidableEq

/-- Body of the try block of fetch_single_listing (fetch_listing.py lines
75-211): blocking check first, then 404 (returns None), then any other
status >= 400 raises, then parse and persist. -/
def fetch_single_inner (listing_id : Int) (url : List Char) (env : FetchEnv) :
    Except FetchExc (Option Record) :=
  match env with
  | .raises msg => .error (.exc msg)
  | .responds status html soup persistOk =>
    match detect_blocking html with
    | (true, reason) => .error (.blocking (reason.getD []))
    | (false, _) =>
      if status == 404 then .ok none
      else if 400 ≤ status then .error (.exc ("HTTP error".toList))
      else
        let parsed := parse_listing soup url listing_id
        if persistOk then .ok (some parsed)
        else .error (.exc "upsert failed".toList)

/-- fetch_single_listing with its trailing handlers (lines 213-219): the
blocking signal is re-raised, any other exception is swallowed and the
function returns None. -/
def fetch_single_listing (listing_id : Int) (url : List Char)
    (env : FetchEnv) : Except (List Char) (Option Record) :=
  match fetch_single_inner listing_id url env with
  | .error (.blocking r) => .error r
  | .error (.exc _) => .ok none
  | .ok v => .ok v

/-- The per-entry body of the batch loop of fetch_and_process_batch
(lines 302-335): mark the attempt, fetch; a parsed record updates the
state to FETCHED 200, a None result updates it to INACTIVE 404, and the
blocking signal schedules a retry and breaks the loop (the returned Bool
is false exactly when the loop breaks).  Failures of the queue-update
statements themselves are storage-layer failures and are not modelled. -/
def process_entry (row : QueueRow) (env : FetchEnv) (now : Nat) :
    QueueRow × Bool :=
  let row1 := mark_attempt row now
  match fetch_single_listing (row.listing_id : Int) row.url env with
  | .ok (some _) => (update_state row1 .FETCHED 200 none, true)
  | .ok none => (update_state row1 .INACTIVE 404 none, true)
  | .error _ =>
    (schedule_retry row1 (row.attempts + 1) 0
      (some "Blocking detected".toList) now, false)

/-! Claim exclusivity: the row-lock semantics of
SELECT ... FOR UPDATE SKIP LOCKED inside a `with wh_conn()` transaction. -/

/-- A queue row together with its row-level lock holder (claimer id). -/
structure LockRow where
  row : QueueRow
  lockedBy : Option Nat
deriving DecidableEq

/-- Eligibility condition of the claim query (fetch_listing.py lines
282-289): state NEW or RETRY and next_retry_at null or elapsed. -/
def eligibleRow (now : Nat) (r : QueueRow) : Bool :=
  (r.state == QState.NEW || r.state == QState.RETRY)
    && (match r.next_retry_at with
        | none => true
        | some t => decide (t ≤ now))

/-- A row the claim query may take: eligible and not locked by anyone
(SKIP LOCKED passes over rows locked by another claimer without
waiting). -/
def selectable (now : Nat) (lr : LockRow) : Bool :=
  eligibleRow now lr.row && lr.lockedBy == none

/-- SELECT ... LIMIT n FOR UPDATE SKIP LOCKED for claimer c: walk the
table in order, take up to n selectable rows and lock them for c; locked
rows are skipped, never waited on. -/
def claimGo (c now : Nat) : Nat → List LockRow → List Nat × List LockRow
  | _, [] => ([], [])
  | n, lr :: rest =>
    if n == 0 then ([], lr :: rest)
    else if selectable now lr then
      let t := claimGo c now (n - 1) rest
      (lr.row.listing_id :: t.1, { lr with lockedBy := some c } :: t.2)
    else
      let t := claimGo c now n rest
      (t.1, lr :: t.2)

/-- Transaction commit at the end of a `with wh_conn()` block: all row
locks held by the claimer are released. -/
def commitRelease (c : Nat) (db : List LockRow) : List LockRow :=
  db.map (fun lr =>
    if lr.lockedBy == some c then { lr with lockedBy := none } else lr)

/-- The claim step of fetch_and_process_batch (lines 279-290): the claim
query runs inside its own `with wh_conn()` block, whose exit commits the
transaction — releasing the locks — before any processing begins, and no
column of the selected rows is changed by the claim itself. -/
def fetch_claim_step (c now batch_size : Nat) (db : List LockRow) :
    List Nat × List LockRow :=
  let t := claimGo c now batch_size db
  (t.1, commitRelease c t.2)

/-! Concrete fixtures used by counterexamples and witnesses. -/

/-- Test fixture: an empty parsed document. -/
def soupEmpty : Soup := { text := [], h1 := none, imgs := [] }

/-- Test fixture: a minimal extraction record with a given id and price. -/
def mkRecord (lid : Int) (price : Option Int) : Record :=
  { listing_id := lid
    url := []
    title := none
    price_kzt := price
    city := none
    region := none
    make := none
    model := none
    generation := none
    trim := none
    car_year := none
    mileage_km := none
    body_type := none
    engine_volume_l := none
    engine_type := none
    transmission := none
    drivetrain := none
    steering := none
    color := none
    customs_cleared := none
    seller_name := none
    seller_type := "private".toList
    options_text := none
    options_list := []
    photos := []
    photo_count := 0 }

/-- Test fixture: the empty silver state. -/
def silverEmpty : SilverState := { current := [], events := [], daily := [] }

/-- Test fixture: silver state after first upserting listing 7 at price
12,000,000 at minute 1000. -/
def silverFixture : SilverState :=
  (upsert_silver (mkRecord 7 (some 12000000)) ⟨1000, true⟩ 0
    silverEmpty).toOption.getD silverEmpty

/-- Test fixture: a freshly enqueued queue row. -/
def cexQueueRow : QueueRow := newQueueRow 42 "https://kolesa.kz/a/show/42".toList

/-- Test fixture: a lock table with two eligible unlocked NEW rows. -/
def cexLockDB : List LockRow :=
  [{ row := newQueueRow 101 [], lockedBy := none },
   { row := newQueueRow 102 [], lockedBy := none }]

/-! Helper lemmas. -/

theorem isPre_append_self (xs ys : List Char) : isPre xs (xs ++ ys) = true := by
  induction xs with
  | nil => rfl
  | cons a as ih => simp [isPre, ih]

theorem containsSub_of_isPre {n h : List Char} (hp : isPre n h = true) :
    containsSub n h = true := by
  cases h with
  | nil => simpa [containsSub] using hp
  | cons c tl => simp [containsSub, hp]

/-- C5: backoff(a) = min(2^a minutes, 1 day) is monotone in the attempt
count and capped at one day (1440 minutes), and schedule_retry sets the
state to RETRY with next_retry_at = now + backoff(attempts). -/
theorem backoff_schedule_retry_spec :
    (∀ a1 a2 : Nat, a1 < a2 →
      backoff_minutes a1 ≤ backoff_minutes a2 ∧ backoff_minutes a2 ≤ 60 * 24)
    ∧ (∀ a : Nat, backoff_minutes a = min (2 ^ a) (60 * 24))
    ∧ (∀ (r : QueueRow) (attempts : Nat) (status : Int)
        (err : Option (List Char)) (now : Nat),
        (schedule_retry r attempts status err now).state = QState.RETRY
        ∧ (schedule_retry r attempts status err now).next_retry_at
            = some (now + backoff_minutes attempts)) := by
  refine ⟨fun a1 a2 h => ⟨?_, ?_⟩, fun a => rfl,
    fun r attempts status err now => ⟨rfl, rfl⟩⟩
  · exact min_le_min (Nat.pow_le_pow_right (by norm_num) h.le) le_rfl
  · exact min_le_right _ _

/-- Witness for backoff_schedule_retry_spec at attempts 3 < 5. -/
theorem backoff_schedule_retry_spec_witness :
    backoff_minutes 3 ≤ backoff_minutes 5 ∧ backoff_minutes 5 ≤ 60 * 24 :=
  backoff_schedule_retry_spec.1 3 5 (by decide)

theorem any_eq_false_of_countRows_zero {q : List QueueRow} {lid : Nat}
    (h : countRows q lid = 0) : (q.any fun r => r.listing_id == lid) = false := by
  rw [countRows] at h
  rw [List.any_eq_false]
  intro x hx
  have hnil := List.length_eq_zero.mp h
  intro hpx
  have : x ∈ q.filter fun r => r.listing_id == lid := List.mem_filter.mpr ⟨hx, hpx⟩
  simp [hnil] at this

theorem insertAll_count (base : List Char) :
    ∀ (ids : List Nat) (q : List QueueRow), ids.Nodup →
      (insertAll base q ids).2
        = (ids.filter fun i => !(q.any fun r => r.listing_id == i)).length := by
  intro ids
  induction ids with
  | nil => intro q _; rfl
  | cons lid rest ih =>
    intro q hnd
    rcases List.nodup_cons.mp hnd with ⟨hmem, hnd'⟩
    by_cases hq : (q.any fun r => r.listing_id == lid) = true
    · simp [insertAll, enqueue, hq, ih q hnd']
    · have hq' : (q.any fun r => r.listing_id == lid) = false :=
        Bool.eq_false_iff.mpr hq
      have hcong : ∀ i ∈ rest,
          (!((q ++ [newQueueRow lid (listingUrl base lid)]).any
              fun r => r.listing_id == i))
            = (!(q.any fun r => r.listing_id == i)) := by
        intro i hi
        have hne : lid ≠ i := fun hcontra => hmem (hcontra ▸ hi)
        simp [List.any_append, newQueueRow, hne]
      simp only [insertAll, enqueue, hq', Bool.false_eq_true,
        not_false_eq_true, if_true, if_neg]
      rw [ih _ hnd', List.filter_congr hcong]
      simp [hq']
      omega

/-- C9: enqueue inserts a NEW row with zero attempts when the id is
absent and is a no-op otherwise; a second enqueue of the same id leaves
the queue unchanged with exactly one row for that id; and the discovery
insert loop returns the count of ids actually inserted, excluding ids
already present. -/
theorem enqueue_idempotent_spec :
    (∀ (q : List QueueRow) (lid : Nat) (url : List Char),
        (q.any fun r => r.listing_id == lid) = false →
          enqueue q lid url = (q ++ [newQueueRow lid url], true)
          ∧ (newQueueRow lid url).state = QState.NEW
          ∧ (newQueueRow lid url).attempts = 0)
    ∧ (∀ (q : List QueueRow) (lid : Nat) (url : List Char),
        (q.any fun r => r.listing_id == lid) = true →
          enqueue q lid url = (q, false))
    ∧ (∀ (q : List QueueRow) (lid : Nat) (url url' : List Char),
        countRows q lid = 0 →
          enqueue (enqueue q lid url).1 lid url' = ((enqueue q lid url).1, false)
          ∧ countRows (enqueue (enqueue q lid url).1 lid url').1 lid = 1)
    ∧ (∀ (base : List Char) (ids : List Nat) (q : List QueueRow), ids.Nodup →
        (insertAll base q ids).2
          = (ids.filter fun i => !(q.any fun r => r.listing_id == i)).length) := by
  refine ⟨fun q lid url h => ⟨by simp [enqueue, h], rfl, rfl⟩,
    fun q lid url h => by simp [enqueue, h],
    fun q lid url url' h => ?_,
    fun base ids q hnd => insertAll_count base ids q hnd⟩
  have h0 : (q.any fun r => r.listing_id == lid) = false :=
    any_eq_false_of_countRows_zero h
  have h1 : enqueue q lid url = (q ++ [newQueueRow lid url], true) := by
    simp [enqueue, h0]
  have h2 : ((q ++ [newQueueRow lid url]).any fun r => r.listing_id == lid)
      = true := by
    simp [List.any_append, newQueueRow]
  constructor
  · rw [h1]
    simp [enqueue, h2]
  · rw [h1]
    simp only [enqueue, h2, if_pos]
    rw [countRows, List.filter_append]
    have : countRows q lid = 0 := h
    rw [countRows] at this
    simp [this, newQueueRow]

/-- Witness for enqueue_idempotent_spec: enqueuing id 9 twice into the
empty queue. -/
theorem enqueue_idempotent_spec_witness :
    enqueue (enqueue ([] : List QueueRow) 9 []).1 9 []
        = ((enqueue ([] : List QueueRow) 9 []).1, false)
    ∧ countRows (enqueue (enqueue ([] : List QueueRow) 9 []).1 9 []).1 9 = 1 :=
  enqueue_idempotent_spec.2.2.1 [] 9 [] [] (by decide)

/-- C1 counterexample: processing a queue entry whose fetch returns HTTP
status 500 — an error status >= 400 other than not-found, with a
non-blocked page — transitions the entry to INACTIVE (recording status
404, no next_retry_at), not to RETRY as the claim states; the same
happens for an unexpected exception raised by the fetch machinery. -/
theorem process_entry_http_error_counterexample :
    (process_entry cexQueueRow (.responds 500 [] soupEmpty true) 0).1.state
        = QState.INACTIVE
    ∧ QState.INACTIVE ≠ QState.RETRY
    ∧ (process_entry cexQueueRow
        (.responds 500 [] soupEmpty true) 0).1.next_retry_at = none
    ∧ (process_entry cexQueueRow
        (.responds 500 [] soupEmpty true) 0).1.last_http_status = some 404
    ∧ (detect_blocking ([] : List Char)).1 = false
    ∧ (process_entry cexQueueRow (.raises "boom".toList) 0).1.state
        = QState.INACTIVE :=
  ⟨rfl, by decide, rfl, rfl, rfl, rfl⟩

/-- C1 amended: inside the single-listing fetch, unexpected exceptions and
HTTP error statuses >= 400 other than 404 are caught and turned into a
None result, which the batch entry point records as INACTIVE with status
404 — exactly as a confirmed not-found; only the blocking signal leads to
schedule_retry (state RETRY, future next_retry_at, error message
attached) and it breaks the batch loop instead of propagating; a
successful fetch-parse-persist yields FETCHED. -/
theorem process_entry_spec :
    (∀ (row : QueueRow) (html : List Char) (soup : Soup) (pOk : Bool)
        (status : Int) (now : Nat), (detect_blocking html).1 = true →
        process_entry row (.responds status html soup pOk) now
          = (schedule_retry (mark_attempt row now) (row.attempts + 1) 0
              (some "Blocking detected".toList) now, false)
        ∧ (process_entry row (.responds status html soup pOk) now).1.state
            = QState.RETRY
        ∧ (process_entry row (.responds status html soup pOk) now).1.next_retry_at
            = some (now + backoff_minutes (row.attempts + 1))
        ∧ now < now + backoff_minutes (row.attempts + 1)
        ∧ (process_entry row (.responds status html soup pOk) now).1.last_error
            = some "Blocking detected".toList)
    ∧ (∀ (row : QueueRow) (msg : List Char) (now : Nat),
        (process_entry row (.raises msg) now).1.state = QState.INACTIVE
        ∧ (process_entry row (.raises msg) now).2 = true)
    ∧ (∀ (row : QueueRow) (html : List Char) (soup : Soup) (pOk : Bool)
        (status : Int) (now : Nat), (detect_blocking html).1 = false →
        status ≠ 404 → 400 ≤ status →
        (process_entry row (.responds status html soup pOk) now).1.state
            = QState.INACTIVE
        ∧ (process_entry row
            (.responds status html soup pOk) now).1.last_http_status = some 404)
    ∧ (∀ (row : QueueRow) (html : List Char) (soup : Soup) (pOk : Bool)
        (now : Nat), (detect_blocking html).1 = false →
        (process_entry row (.responds 404 html soup pOk) now).1.state
            = QState.INACTIVE)
    ∧ (∀ (row : QueueRow) (html : List Char) (soup : Soup) (status : Int)
        (now : Nat), (detect_blocking html).1 = false → status ≠ 404 →
        status < 400 →
        (process_entry row (.responds status html soup false) now).1.state
            = QState.INACTIVE)
    ∧ (∀ (row : QueueRow) (html : List Char) (soup : Soup) (status : Int)
        (now : Nat), (detect_blocking html).1 = false → status ≠ 404 →
        status < 400 →
        (process_entry row (.responds status html soup true) now).1.state
            = QState.FETCHED) := by
  have hpos : ∀ a : Nat, 0 < backoff_minutes a := by
    intro a
    rw [backoff_minutes]
    exact lt_min_iff.mpr ⟨Nat.pos_pow_of_pos a (by norm_num), by norm_num⟩
  refine ⟨?_, ?_, ?_, ?_, ?_, ?_⟩
  · intro row html soup pOk status now hb
    rcases hdb : detect_blocking html with ⟨b, rs⟩
    rw [hdb] at hb
    simp only at hb
    subst hb
    refine ⟨?_, ?_, ?_, Nat.lt_add_of_pos_right (hpos _), ?_⟩ <;>
      simp [process_entry, fetch_single_listing, fetch_single_inner, hdb,
        schedule_retry, mark_attempt]
  · intro row msg now
    exact ⟨rfl, rfl⟩
  · intro row html soup pOk status now hb h404 hge
    rcases hdb : detect_blocking html with ⟨b, rs⟩
    rw [hdb] at hb
    simp only at hb
    subst hb
    have h404b : (status == 404) = false := beq_eq_false_iff_ne.mpr h404
    constructor <;>
      simp [process_entry, fetch_single_listing, fetch_single_inner, hdb,
        h404b, hge, update_state]
  · intro row html soup pOk now hb
    rcases hdb : detect_blocking html with ⟨b, rs⟩
    rw [hdb] at hb
    simp only at hb
    subst hb
    simp [process_entry, fetch_single_listing, fetch_single_inner, hdb,
      update_state]
  · intro row html soup status now hb h404 hlt
    rcases hdb : detect_blocking html with ⟨b, rs⟩
    rw [hdb] at hb
    simp only at hb
    subst hb
    have h404b : (status == 404) = false := beq_eq_false_iff_ne.mpr h404
    have hnge : ¬ (400 ≤ status) := not_le.mpr hlt
    simp [process_entry, fetch_single_listing, fetch_single_inner, hdb,
      h404b, hnge, update_state]
  · intro row html soup status now hb h404 hlt
    rcases hdb : detect_blocking html with ⟨b, rs⟩
    rw [hdb] at hb
    simp only at hb
    subst hb
    have h404b : (status == 404) = false := beq_eq_false_iff_ne.mpr h404
    have hnge : ¬ (400 ≤ status) := not_le.mpr hlt
    simp [process_entry, fetch_single_listing, fetch_single_inner, hdb,
      h404b, hnge, update_state]

/-- Witness for process_entry_spec: a blocked page ("captcha") drives the
entry to RETRY. -/
theorem process_entry_spec_witness :
    (process_entry cexQueueRow
      (.responds 200 "captcha".toList soupEmpty true) 0).1.state
        = QState.RETRY :=
  (process_entry_spec.1 cexQueueRow "captcha".toList soupEmpty true 200 0
    (by decide)).2.1

theorem isPre_all (p : Char → Bool) :
    ∀ (n h : List Char), isPre n h = true → h.all p = true → n.all p = true
  | [], _, _, _ => rfl
  | _ :: _, [], hp, _ => by simp [isPre] at hp
  | a :: as, b :: bs, hp, hall => by
    rw [isPre, Bool.and_eq_true] at hp
    rcases hp with ⟨hab, hrest⟩
    rw [List.all_cons, Bool.and_eq_true] at hall
    rcases hall with ⟨hpb, hbs⟩
    rw [List.all_cons, Bool.and_eq_true]
    have hab' : a = b := by simpa using hab
    exact ⟨hab' ▸ hpb, isPre_all p as bs hrest hbs⟩

theorem containsSub_all (p : Char → Bool) :
    ∀ (n h : List Char), containsSub n h = true → h.all p = true →
      n.all p = true
  | n, [], hc, hall => isPre_all p n [] (by simpa [containsSub] using hc) hall
  | n, c :: tl, hc, hall => by
    rw [containsSub, Bool.or_eq_true] at hc
    rcases hc with h1 | h2
    · exact isPre_all p n (c :: tl) h1 hall
    · refine containsSub_all p n tl h2 ?_
      rw [List.all_cons, Bool.and_eq_true] at hall
      exact hall.2

theorem all_replicate (p : Char → Bool) (c : Char) (hc : p c = true) :
    ∀ n, (List.replicate n c).all p = true
  | 0 => rfl
  | n + 1 => by
    rw [List.replicate_succ, List.all_cons, all_replicate p c hc n, hc]
    rfl

theorem containsSub_replicate_false {kw : List Char} (n : Nat)
    (h : kw.all (fun c => c == 'a') = false) :
    containsSub kw (List.replicate n 'a') = false := by
  cases hc : containsSub kw (List.replicate n 'a') with
  | false => rfl
  | true =>
    have hall := containsSub_all (fun c => c == 'a') kw _ hc
      (all_replicate _ 'a' (by decide) n)
    rw [hall] at h
    cases h

theorem dropAfterFirst_eq_none {needle : List Char} :
    ∀ {h : List Char}, containsSub needle h = false →
      dropAfterFirst needle h = none
  | [], hc => by
    rw [containsSub] at hc
    simp [dropAfterFirst, hc]
  | c :: tl, hc => by
    rw [containsSub] at hc
    rcases Bool.or_eq_false_iff.mp hc with ⟨h1, h2⟩
    simp [dropAfterFirst, h1, dropAfterFirst_eq_none h2]

theorem splitNL_no_newline :
    ∀ {h : List Char}, h.all (fun c => !(c == '\n')) = true → splitNL h = [h]
  | [], _ => rfl
  | c :: tl, hall => by
    rw [List.all_cons, Bool.and_eq_true] at hall
    rcases hall with ⟨hc, htl⟩
    have hne : ¬ (c = '\n') := by simpa using hc
    simp [splitNL, if_neg hne, splitNL_no_newline htl]

theorem reSearchPats_replicate_false (p1 : List Char) (ps : List (List Char))
    (n : Nat) (h : p1.all (fun c => c == 'a') = false) :
    reSearchPats (p1 :: ps) (List.replicate n 'a') = false := by
  rw [reSearchPats, splitNL_no_newline (all_replicate _ 'a' (by decide) n)]
  simp [matchSeq, dropAfterFirst_eq_none (containsSub_replicate_false n h)]

theorem findTitle_no_open :
    ∀ {h : List Char}, h.all (fun c => !(c == '<')) = true → findTitle h = none
  | [], _ => rfl
  | c :: tl, hall => by
    rw [List.all_cons, Bool.and_eq_true] at hall
    rcases hall with ⟨hc, htl⟩
    have hne : ('<' == c) = false := by
      have hcc : ¬ (c = '<') := by simpa using hc
      exact beq_eq_false_iff_ne.mpr (Ne.symm hcc)
    have hpre : isPre ['<', 't', 'i', 't', 'l', 'e'] (c :: tl) = false := by
      rw [isPre, hne, Bool.false_and]
    have hta : titleAt (c :: tl) = none := by
      rw [titleAt, if_neg (by simp [hpre])]
    simp [findTitle, hta, findTitle_no_open htl]

theorem lowerStr_replicate_a (n : Nat) :
    lowerStr (List.replicate n 'a') = List.replicate n 'a' := by
  rw [lowerStr, List.map_replicate, show pyLowerChar 'a' = 'a' from by decide]

theorem detect_blocking_fixtureNormal :
    detect_blocking fixtureNormal = (false, none) := by
  unfold fixtureNormal
  have hpats : ∀ pr ∈ blockingPatterns,
      reSearchPats pr.1 (List.replicate 50000 'a') = false := by
    intro pr hpr
    fin_cases hpr <;> exact reSearchPats_replicate_false _ _ _ (by decide)
  have hfb : findBlockingPattern (List.replicate 50000 'a') = none := by
    rw [findBlockingPattern, List.findSome?_eq_none_iff]
    intro pr hpr
    rw [hpats pr hpr]
    simp
  have hft : findTitle (List.replicate 50000 'a') = none :=
    findTitle_no_open (all_replicate _ 'a' (by decide) 50000)
  have hcf : containsSub "cf-ray".toList (List.replicate 50000 'a') = false :=
    containsSub_replicate_false _ (by decide)
  have hcf2 : cfRayCheck (List.replicate 50000 'a')
      (List.replicate 50000 'a') = (false, none) := by
    rw [cfRayCheck, hcf, Bool.false_and, Bool.false_and]
    simp
  have h50 : (decide ((50000 : Nat) < 5000)) = false := by decide
  simp only [detect_blocking, lowerStr_replicate_a, List.length_replicate,
    h50, Bool.false_and, Bool.false_eq_true, if_false, hfb, hft, hcf2]

theorem fixtureBlocked_parts :
    fixtureBlocked.length = 3000
    ∧ containsSub "captcha".toList (lowerStr fixtureBlocked) = true := by
  constructor
  · rw [fixtureBlocked, List.length_append, List.length_replicate]
    rfl
  · have hlow : lowerStr fixtureBlocked
        = "captcha".toList ++ List.replicate 2993 'a' := by
      rw [fixtureBlocked, lowerStr, List.map_append, List.map_replicate]
      rw [show List.map pyLowerChar "captcha".toList = "captcha".toList from
        by decide]
      rw [show pyLowerChar 'a' = 'a' from by decide]
    rw [hlow]
    exact containsSub_of_isPre (isPre_append_self _ _)

theorem detect_blocking_short (html : List Char) (h1 : html.length < 5000)
    (h2 : (shortKeywords.any fun k => containsSub k (lowerStr html)) = true) :
    (detect_blocking html).1 = true := by
  simp only [detect_blocking]
  rw [decide_eq_true h1, h2]
  rfl

/-- C6: a page shorter than the small-content threshold (5,000
characters) containing any keyword of {captcha, cloudflare, challenge,
verify} is flagged blocked; in particular the 3,000-character fixture
containing "captcha" is blocked, while the 50,000-character fixture with
no blocking keywords and no challenge patterns is not. -/
theorem detect_blocking_spec :
    (∀ html : List Char, html.length < 5000 →
        (shortKeywords.any fun k => containsSub k (lowerStr html)) = true →
        (detect_blocking html).1 = true)
    ∧ (detect_blocking fixtureBlocked).1 = true
    ∧ fixtureBlocked.length = 3000
    ∧ containsSub "captcha".toList (lowerStr fixtureBlocked) = true
    ∧ (detect_blocking fixtureNormal).1 = false
    ∧ fixtureNormal.length = 50000 := by
  refine ⟨detect_blocking_short, ?_, fixtureBlocked_parts.1,
    fixtureBlocked_parts.2, ?_, ?_⟩
  · refine detect_blocking_short fixtureBlocked ?_ ?_
    · rw [fixtureBlocked_parts.1]
      norm_num
    · simp only [shortKeywords, List.any_cons, Bool.or_eq_true]
      exact Or.inl fixtureBlocked_parts.2
  · rw [detect_blocking_fixtureNormal]
  · rw [fixtureNormal, List.length_replicate]

/-- Witness for detect_blocking_spec: a short page consisting of the word
"captcha" alone is blocked. -/
theorem detect_blocking_spec_witness :
    (detect_blocking "captcha".toList).1 = true :=
  detect_blocking_spec.1 "captcha".toList (by decide) (by decide)

/-- C2: for every parsed document (the image of any input string —
including the empty string, non-HTML text or truncated HTML — under the
HTML library), any url and any listing id, parse_listing terminates and
returns a record whose dict carries exactly the required keys in source
order, echoing the given listing_id and url, with photo_count derived
from the photos list; missing fields are None, never an error. -/
theorem parse_listing_total_keys (soup : Soup) (url : List Char) (lid : Int) :
    (toDict (parse_listing soup url lid)).map Prod.fst = requiredKeys
    ∧ (parse_listing soup url lid).listing_id = lid
    ∧ (parse_listing soup url lid).url = url
    ∧ (parse_listing soup url lid).photo_count
        = (parse_listing soup url lid).photos.length :=
  ⟨rfl, rfl, rfl, rfl⟩

/-- C10: the customs_cleared field is tri-state: true exactly when the
(cleaned) line following the customs label is "Да", false exactly when it
is "Нет", and null in every other case (label absent or any other
value). -/
theorem customs_cleared_tri_state (soup : Soup) (url : List Char) (lid : Int) :
    ((parse_listing soup url lid).customs_cleared = some true ↔
      find_value_after (textLines soup.text) "Растаможен в Казахстане".toList
        = some "Да".toList)
    ∧ ((parse_listing soup url lid).customs_cleared = some false ↔
      find_value_after (textLines soup.text) "Растаможен в Казахстане".toList
        = some "Нет".toList)
    ∧ ((parse_listing soup url lid).customs_cleared = none ↔
      (find_value_after (textLines soup.text) "Растаможен в Казахстане".toList
          ≠ some "Да".toList
        ∧ find_value_after (textLines soup.text) "Растаможен в Казахстане".toList
          ≠ some "Нет".toList)) := by
  have hcc : (parse_listing soup url lid).customs_cleared =
      (if (find_value_after (textLines soup.text)
            "Растаможен в Казахстане".toList) == some "Да".toList then some true
       else if (find_value_after (textLines soup.text)
            "Растаможен в Казахстане".toList) == some "Нет".toList then
         some false
       else none) := rfl
  have hdn : ("Да".toList : List Char) ≠ "Нет".toList := by decide
  rw [hcc]
  generalize find_value_after (textLines soup.text)
      "Растаможен в Казахстане".toList = v
  by_cases hda : v = some "Да".toList
  · simp [hda, hdn]
  · by_cases hnet : v = some "Нет".toList
    · simp [hda, hnet]
    · have hda' : ¬ v = some ['Д', 'а'] := hda
      have hnet' : ¬ v = some ['Н', 'е', 'т'] := hnet
      simp [hda', hnet']

/-- Events component of the upsert result with a timezone-aware
timestamp. -/
theorem upsert_silver_events (db : SilverState) (r : Record) (t : PyDatetime)
    (today : Nat) (htz : t.tzAware = true) :
    (upsert_silver r t today db).toOption.map SilverState.events
      = some (match (lookupCurrent db r.listing_id).bind
            (fun c => c.price_kzt), r.price_kzt with
          | some op, some np =>
            if op ≠ np then
              insertEvent db.events
                { listing_id := r.listing_id
                  event_ts := t
                  old_price_kzt := op
                  new_price_kzt := np }
            else db.events
          | _, _ => db.events) := by
  simp only [upsert_silver, htz]
  rw [if_neg (by simp)]
  rfl

/-- C3: with an existing current row, a present price differing
numerically from the stored price appends exactly one PriceEvent carrying
the old price, the new price and the fetch timestamp; an equal price
appends no event; and a duplicate event for the same (listing, timestamp)
key is suppressed. -/
theorem price_event_spec (db : SilverState) (r : Record) (t : PyDatetime)
    (today : Nat) (row : CurrentRow) (po : Int)
    (htz : t.tzAware = true)
    (hrow : lookupCurrent db r.listing_id = some row)
    (hpo : row.price_kzt = some po) :
    (∀ pn : Int, r.price_kzt = some pn → po ≠ pn →
      hasEvent db.events r.listing_id t = false →
      (upsert_silver r t today db).toOption.map SilverState.events
        = some (db.events ++ [{ listing_id := r.listing_id
                                event_ts := t
                                old_price_kzt := po
                                new_price_kzt := pn }]))
    ∧ (r.price_kzt = some po →
      (upsert_silver r t today db).toOption.map SilverState.events
        = some db.events)
    ∧ (∀ pn : Int, r.price_kzt = some pn →
      hasEvent db.events r.listing_id t = true →
      (upsert_silver r t today db).toOption.map SilverState.events
        = some db.events) := by
  refine ⟨?_, ?_, ?_⟩
  · intro pn hpn hne hev
    rw [upsert_silver_events db r t today htz, hrow]
    simp only [Option.some_bind]
    rw [hpo, hpn]
    simp only [ne_eq, hne, not_false_eq_true, if_true, insertEvent]
    rw [hev]
    simp
  · intro hpn
    rw [upsert_silver_events db r t today htz, hrow]
    simp only [Option.some_bind]
    rw [hpo, hpn]
    simp
  · intro pn hpn hev
    rw [upsert_silver_events db r t today htz, hrow]
    simp only [Option.some_bind]
    rw [hpo, hpn]
    by_cases hne : po = pn
    · simp [hne]
    · simp only [ne_eq, hne, not_false_eq_true, if_true, insertEvent]
      rw [hev]
      simp

/-- Witness for price_event_spec: upserting price 12,500,000 over a
stored 12,000,000 for listing 7 appends exactly the one event
(12,000,000 → 12,500,000) at the fetch timestamp. -/
theorem price_event_spec_witness :
    (upsert_silver (mkRecord 7 (some 12500000)) ⟨2000, true⟩ 0
        silverFixture).toOption.map SilverState.events
      = some (silverFixture.events
          ++ [{ listing_id := 7
                event_ts := ⟨2000, true⟩
                old_price_kzt := 12000000
                new_price_kzt := 12500000 }]) :=
  (price_event_spec silverFixture (mkRecord 7 (some 12500000)) ⟨2000, true⟩ 0
    (currentFromRecord (mkRecord 7 (some 12000000)) ⟨1000, true⟩ ⟨1000, true⟩
      (payload_hash (mkRecord 7 (some 12000000)))) 12000000
    rfl rfl rfl).1 12500000 rfl (by decide) rfl

theorem find?_map_update {α : Type} (p : α → Bool) (f : α → α)
    (hf : ∀ a, p a = true → p (f a) = true) :
    ∀ l : List α,
      (l.map fun a => if p a then f a else a).find? p = (l.find? p).map f
  | [] => rfl
  | a :: l => by
    cases hpa : p a with
    | true =>
      rw [List.map_cons, if_pos hpa, List.find?_cons_of_pos _ (hf a hpa),
        List.find?_cons_of_pos _ hpa]
      rfl
    | false =>
      rw [List.map_cons, if_neg (by simp [hpa]),
        List.find?_cons_of_neg _ (by simp [hpa]),
        List.find?_cons_of_neg _ (by simp [hpa]), find?_map_update p f hf l]

theorem find?_append_of_none {α : Type} (p : α → Bool) :
    ∀ (l1 l2 : List α), l1.find? p = none →
      (l1 ++ l2).find? p = l2.find? p
  | [], _, _ => rfl
  | a :: l1, l2, h => by
    cases hpa : p a with
    | true => rw [List.find?_cons_of_pos _ hpa] at h; cases h
    | false =>
      rw [List.find?_cons_of_neg _ (by simp [hpa])] at h
      rw [List.cons_append, List.find?_cons_of_neg _ (by simp [hpa])]
      exact find?_append_of_none p l1 l2 h

theorem find?_eq_none_of_any_false {α : Type} {p : α → Bool} {l : List α}
    (h : l.any p = false) : l.find? p = none := by
  rw [List.find?_eq_none]
  intro x hx
  have := List.any_eq_false.mp h x hx
  simp [this]

/-- The full ok-result of upsert_silver with a timezone-aware timestamp. -/
theorem upsert_silver_ok (db : SilverState) (r : Record) (t : PyDatetime)
    (today : Nat) (htz : t.tzAware = true) :
    upsert_silver r t today db = Except.ok
      { current := upsertCurrentList db.current
          (currentFromRecord r
            (match lookupCurrent db r.listing_id with
              | some c => c.first_seen_at
              | none => t) t (payload_hash r))
        events := match (lookupCurrent db r.listing_id).bind
              (fun c => c.price_kzt), r.price_kzt with
          | some op, some np =>
            if op ≠ np then
              insertEvent db.events
                { listing_id := r.listing_id
                  event_ts := t
                  old_price_kzt := op
                  new_price_kzt := np }
            else db.events
          | _, _ => db.events
        daily := upsertDailyList db.daily
          { listing_id := r.listing_id
            snapshot_date := today
            price_kzt := r.price_kzt
            is_active := true
            views := none
            photo_count := some r.photo_count } } := by
  simp only [upsert_silver, htz]
  rw [if_neg (by simp)]

/-- C7 counterexample: upserting with fetched_at at minute 1000 (whose
calendar date is day 0) while the ambient clock's date is day 1 writes
the daily-snapshot row keyed by day 1 — the current date at upsert time —
and no row keyed by the calendar date derived from fetched_at. -/
theorem daily_snapshot_date_counterexample :
    dateOfTs ⟨1000, true⟩ = 0
    ∧ (upsert_silver (mkRecord 7 (some 5)) ⟨1000, true⟩ 1
        silverEmpty).toOption.map (fun d => lookupDaily d 7 0) = some none
    ∧ (upsert_silver (mkRecord 7 (some 5)) ⟨1000, true⟩ 1
        silverEmpty).toOption.map SilverState.daily
      = some [{ listing_id := 7
                snapshot_date := 1
                price_kzt := some 5
                is_active := true
                views := none
                photo_count := some 0 }]
    ∧ (1 : Nat) ≠ dateOfTs ⟨1000, true⟩ :=
  ⟨rfl, rfl, rfl, by decide⟩

/-- C7 amended: the daily snapshot row is keyed by (listing_id, the
ambient clock's calendar date at upsert time) — which equals the date
derived from fetched_at only when the upsert runs on that same calendar
day; the row gets the record's price, activity flag true and photo count,
and the views field is untouched: preserved on conflict and NULL on
insert. -/
theorem daily_snapshot_spec (db : SilverState) (r : Record) (t : PyDatetime)
    (today : Nat) (htz : t.tzAware = true) :
    (upsert_silver r t today db).toOption.map
        (fun d => lookupDaily d r.listing_id today)
      = some (some
          { listing_id := r.listing_id
            snapshot_date := today
            price_kzt := r.price_kzt
            is_active := true
            views := match lookupDaily db r.listing_id today with
              | some old => old.views
              | none => none
            photo_count := some r.photo_count }) := by
  rw [upsert_silver_ok db r t today htz]
  simp only [Except.toOption, Option.map_some']
  rw [Option.some_inj]
  rw [lookupDaily]
  simp only
  rw [upsertDailyList]
  by_cases hany : (db.daily.any fun x =>
      x.listing_id == r.listing_id && x.snapshot_date == today) = true
  · rw [if_pos hany]
    have hf : ∀ a : DailyRow,
        (a.listing_id == r.listing_id && a.snapshot_date == today) = true →
        ((dailyConflictUpdate a
            { listing_id := r.listing_id
              snapshot_date := today
              price_kzt := r.price_kzt
              is_active := true
              views := none
              photo_count := some r.photo_count }).listing_id == r.listing_id
          && (dailyConflictUpdate a
            { listing_id := r.listing_id
              snapshot_date := today
              price_kzt := r.price_kzt
              is_active := true
              views := none
              photo_count := some r.photo_count }).snapshot_date == today)
          = true := by
      intro a ha
      simpa [dailyConflictUpdate] using ha
    rw [find?_map_update _ _ hf]
    cases hfind : db.daily.find? fun x =>
        x.listing_id == r.listing_id && x.snapshot_date == today with
    | none =>
      exfalso
      rcases List.any_eq_true.mp hany with ⟨a, ha, hpa⟩
      have := List.find?_eq_none.mp hfind a ha
      exact this hpa
    | some old =>
      have hold := List.find?_some hfind
      rw [Bool.and_eq_true] at hold
      have h1 : old.listing_id = r.listing_id := by simpa using hold.1
      have h2 : old.snapshot_date = today := by simpa using hold.2
      rw [Option.map_some']
      rw [lookupDaily] at *
      cases old with
      | mk a b cpr dact ev fpc =>
        simp only at h1 h2
        subst h1
        subst h2
        rw [hfind]
        rfl
  · rw [if_neg hany]
    have hnone : (db.daily.find? fun x =>
        x.listing_id == r.listing_id && x.snapshot_date == today) = none :=
      find?_eq_none_of_any_false (Bool.eq_false_iff.mpr hany)
    rw [find?_append_of_none _ _ _ hnone]
    rw [List.find?_cons_of_pos _ (by simp)]
    rw [lookupDaily, hnone]

/-- Witness for daily_snapshot_spec: an upsert into the empty state
creates the day-5 row with NULL views. -/
theorem daily_snapshot_spec_witness :
    (upsert_silver (mkRecord 7 (some 5)) ⟨1000, true⟩ 5
        silverEmpty).toOption.map (fun d => lookupDaily d 7 5)
      = some (some
          { listing_id := 7
            snapshot_date := 5
            price_kzt := some 5
            is_active := true
            views := none
            photo_count := some 0 }) :=
  daily_snapshot_spec silverEmpty (mkRecord 7 (some 5)) ⟨1000, true⟩ 5 rfl

/-- C8: upserting over an existing CurrentSnapshot row overwrites every
record attribute with the new record's values, stores a fresh content
fingerprint, sets last_seen_at := fetched_at, forces is_active := true,
and leaves first_seen_at — and the four seller columns the record does
not carry — unchanged from the stored row. -/
theorem current_snapshot_spec (db : SilverState) (r : Record)
    (t : PyDatetime) (today : Nat) (row : CurrentRow)
    (htz : t.tzAware = true)
    (hrow : lookupCurrent db r.listing_id = some row) :
    (upsert_silver r t today db).toOption.map
        (fun d => lookupCurrent d r.listing_id)
      = some (some
          { listing_id := row.listing_id
            url := r.url
            title := r.title
            price_kzt := r.price_kzt
            city := r.city
            region := r.region
            make := r.make
            model := r.model
            generation := r.generation
            trim := r.trim
            car_year := r.car_year
            mileage_km := r.mileage_km
            body_type := r.body_type
            engine_volume_l := r.engine_volume_l
            engine_type := r.engine_type
            transmission := r.transmission
            drivetrain := r.drivetrain
            steering := r.steering
            color := r.color
            customs_cleared := r.customs_cleared
            seller_name := r.seller_name
            seller_type := r.seller_type
            seller_user_id := row.seller_user_id
            seller_months_on_site := row.seller_months_on_site
            seller_inventory_count := row.seller_inventory_count
            seller_address := row.seller_address
            options_text := r.options_text
            photos := r.photos
            first_seen_at := row.first_seen_at
            last_seen_at := t
            is_active := true
            payload_hash := payload_hash r }) := by
  have hrow' : db.current.find? (fun x => x.listing_id == r.listing_id)
      = some row := hrow
  rw [upsert_silver_ok db r t today htz]
  simp only [Except.toOption, Option.map_some']
  rw [Option.some_inj]
  rw [lookupCurrent]
  simp only
  rw [upsertCurrentList, hrow]
  simp only
  rw [show (currentFromRecord r row.first_seen_at t
      (payload_hash r)).listing_id = r.listing_id from rfl]
  have hany : (db.current.any fun x => x.listing_id == r.listing_id)
      = true := by
    rw [List.any_eq_true]
    exact ⟨row, List.mem_of_find?_eq_some hrow',
      by simpa using List.find?_some hrow'⟩
  rw [if_pos hany]
  have hf : ∀ a : CurrentRow, (a.listing_id == r.listing_id) = true →
      ((conflictUpdate a (currentFromRecord r row.first_seen_at t
          (payload_hash r))).listing_id == r.listing_id) = true := by
    intro a ha
    simpa [conflictUpdate] using ha
  rw [find?_map_update _ _ hf]
  rw [hrow']
  rfl

/-- Witness for current_snapshot_spec: re-upserting listing 7 at the new
price over the fixture state. -/
theorem current_snapshot_spec_witness :
    (upsert_silver (mkRecord 7 (some 12500000)) ⟨2000, true⟩ 0
        silverFixture).toOption.map (fun d => lookupCurrent d 7)
      = some (some
          { listing_id := 7
            url := []
            title := none
            price_kzt := some 12500000
            city := none
            region := none
            make := none
            model := none
            generation := none
            trim := none
            car_year := none
            mileage_km := none
            body_type := none
            engine_volume_l := none
            engine_type := none
            transmission := none
            drivetrain := none
            steering := none
            color := none
            customs_cleared := none
            seller_name := none
            seller_type := "private".toList
            seller_user_id := none
            seller_months_on_site := none
            seller_inventory_count := none
            seller_address := none
            options_text := none
            photos := []
            first_seen_at := ⟨1000, true⟩
            last_seen_at := ⟨2000, true⟩
            is_active := true
            payload_hash := mkRecord 7 (some 12500000) }) :=
  current_snapshot_spec silverFixture (mkRecord 7 (some 12500000))
    ⟨2000, true⟩ 0
    (currentFromRecord (mkRecord 7 (some 12000000)) ⟨1000, true⟩ ⟨1000, true⟩
      (payload_hash (mkRecord 7 (some 12000000)))) rfl rfl

theorem claimGo_ids_sub (c now : Nat) :
    ∀ (n : Nat) (db : List LockRow) (x : Nat),
      x ∈ (claimGo c now n db).1 →
      ∃ lr ∈ db, lr.row.listing_id = x ∧ selectable now lr = true
  | n, [], x, hx => by simp [claimGo] at hx
  | n, lr :: rest, x, hx => by
    rw [claimGo] at hx
    by_cases hn : (n == 0) = true
    · rw [if_pos hn] at hx
      simp at hx
    · rw [if_neg hn] at hx
      by_cases hsel : selectable now lr = true
      · rw [if_pos hsel] at hx
        simp only [List.mem_cons] at hx
        rcases hx with hx | hx
        · exact ⟨lr, List.mem_cons_self lr rest, hx.symm, hsel⟩
        · rcases claimGo_ids_sub c now (n - 1) rest x hx with ⟨lr', hm, hid, hs⟩
          exact ⟨lr', List.mem_cons_of_mem lr hm, hid, hs⟩
      · rw [if_neg hsel] at hx
        rcases claimGo_ids_sub c now n rest x hx with ⟨lr', hm, hid, hs⟩
        exact ⟨lr', List.mem_cons_of_mem lr hm, hid, hs⟩

theorem claimGo_ids_map (c now : Nat) :
    ∀ (n : Nat) (db : List LockRow),
      ((claimGo c now n db).2).map (fun lr => lr.row.listing_id)
        = db.map (fun lr => lr.row.listing_id)
  | n, [] => by simp [claimGo]
  | n, lr :: rest => by
    rw [claimGo]
    by_cases hn : (n == 0) = true
    · rw [if_pos hn]
    · rw [if_neg hn]
      by_cases hsel : selectable now lr = true
      · rw [if_pos hsel]
        simp only [List.map_cons, claimGo_ids_map c now (n - 1) rest]
      · rw [if_neg hsel]
        simp only [List.map_cons, claimGo_ids_map c now n rest]

theorem claimGo_locked (c now : Nat) :
    ∀ (n : Nat) (db : List LockRow),
      (db.map fun lr => lr.row.listing_id).Nodup →
      ∀ x ∈ (claimGo c now n db).1, ∀ lr' ∈ (claimGo c now n db).2,
        lr'.row.listing_id = x → lr'.lockedBy = some c
  | n, [], _, x, hx, _, _, _ => by simp [claimGo] at hx
  | n, lr :: rest, hnd, x, hx, lr', hlr', heq => by
    rw [List.map_cons, List.nodup_cons] at hnd
    rcases hnd with ⟨hhead, hnd'⟩
    rw [claimGo] at hx hlr'
    by_cases hn : (n == 0) = true
    · rw [if_pos hn] at hx
      simp at hx
    · rw [if_neg hn] at hx hlr'
      by_cases hsel : selectable now lr = true
      · rw [if_pos hsel] at hx hlr'
        simp only [List.mem_cons] at hx hlr'
        rcases hx with hx | hx
        · rcases hlr' with hlr' | hlr'
          · rw [hlr']
          · exfalso
            apply hhead
            rw [← hx, ← heq]
            have : lr'.row.listing_id
                ∈ ((claimGo c now (n - 1) rest).2).map
                  (fun q => q.row.listing_id) :=
              List.mem_map_of_mem _ hlr'
            rw [claimGo_ids_map c now (n - 1) rest] at this
            exact this
        · rcases hlr' with hlr' | hlr'
          · exfalso
            apply hhead
            rcases claimGo_ids_sub c now (n - 1) rest x hx with ⟨q, hq, hid, _⟩
            have hx' : x ∈ rest.map (fun q => q.row.listing_id) := by
              rw [List.mem_map]
              exact ⟨q, hq, hid⟩
            have : lr.row.listing_id = x := by
              rw [hlr'] at heq
              exact heq
            rw [this]
            exact hx'
          · exact claimGo_locked c now (n - 1) rest hnd' x hx lr' hlr' heq
      · rw [if_neg hsel] at hx hlr'
        simp only [List.mem_cons] at hlr'
        rcases hlr' with hlr' | hlr'
        · exfalso
          apply hhead
          rcases claimGo_ids_sub c now n rest x hx with ⟨q, hq, hid, _⟩
          have hx' : x ∈ rest.map (fun q => q.row.listing_id) := by
            rw [List.mem_map]
            exact ⟨q, hq, hid⟩
          have : lr.row.listing_id = x := by
            rw [hlr'] at heq
            exact heq
          rw [this]
          exact hx'
        · exact claimGo_locked c now n rest hnd' x hx lr' hlr' heq

/-- C4 counterexample: claimer 1 claims both eligible rows through
fetch_and_process_batch's claim step, whose `with wh_conn()` block
commits — releasing the locks — before processing starts; claimer 2,
claiming afterwards while claimer 1 is still processing, receives the
very same listing ids, so the two claim calls overlap. -/
theorem claim_after_commit_counterexample :
    (fetch_claim_step 1 0 5 cexLockDB).1 = [101, 102]
    ∧ (fetch_claim_step 2 0 5 (fetch_claim_step 1 0 5 cexLockDB).2).1
        = [101, 102]
    ∧ (101 : Nat) ∈ (fetch_claim_step 1 0 5 cexLockDB).1
    ∧ (101 : Nat) ∈ (fetch_claim_step 2 0 5
        (fetch_claim_step 1 0 5 cexLockDB).2).1 := by
  refine ⟨rfl, rfl, by decide, by decide⟩

/-- C4 amended: while both claiming transactions are open (locks held),
the two claimers' id sets are disjoint over any table whose listing ids
are distinct; a claim only ever returns rows that were eligible and
unlocked, skipping — without waiting — rows locked by another claimer;
but the code's claim step releases every lock it took when its claiming
transaction commits, before processing begins, so the exclusivity does
not extend over the processing of the claimed rows. -/
theorem claim_exclusive_spec :
    (∀ (now c1 c2 n1 n2 : Nat) (db : List LockRow),
        (db.map fun lr => lr.row.listing_id).Nodup →
        ∀ x ∈ (claimGo c2 now n2 (claimGo c1 now n1 db).2).1,
          x ∉ (claimGo c1 now n1 db).1)
    ∧ (∀ (c now n : Nat) (db : List LockRow) (x : Nat),
        x ∈ (claimGo c now n db).1 →
        ∃ lr ∈ db, lr.row.listing_id = x ∧ selectable now lr = true)
    ∧ (∀ (c now batch : Nat) (db : List LockRow),
        ∀ lr' ∈ (fetch_claim_step c now batch db).2,
          lr'.lockedBy ≠ some c) := by
  refine ⟨?_, fun c now n db x hx => claimGo_ids_sub c now n db x hx, ?_⟩
  · intro now c1 c2 n1 n2 db hnd x hx2 hx1
    rcases claimGo_ids_sub c2 now n2 (claimGo c1 now n1 db).2 x hx2 with
      ⟨lr', hmem', hid', hsel'⟩
    have hlock := claimGo_locked c1 now n1 db hnd x hx1 lr' hmem' hid'
    rw [selectable, Bool.and_eq_true] at hsel'
    have hnone : lr'.lockedBy = none := by simpa using hsel'.2
    rw [hlock] at hnone
    cases hnone
  · intro c now batch db lr' hlr'
    rw [fetch_claim_step] at hlr'
    simp only [commitRelease, List.mem_map] at hlr'
    rcases hlr' with ⟨q, _, hq⟩
    by_cases hqc : (q.lockedBy == some c) = true
    · rw [if_pos hqc] at hq
      rw [← hq]
      simp
    · rw [if_neg hqc] at hq
      rw [← hq]
      simpa using hqc

/-- Witness for claim_exclusive_spec: id 101 claimed out of the fixture
table comes from an eligible, unlocked row. -/
theorem claim_exclusive_spec_witness :
    ∃ lr ∈ cexLockDB, lr.row.listing_id = 101 ∧ selectable 0 lr = true :=
  claim_exclusive_spec.2.1 1 0 5 cexLockDB 101 (by decide)

end Kolesa
